import Mathlib

/-!
Verification development for the khive-ai/automcp repository.

Part 1 embeds `src/verification/verify_automcp.py` (the result-tracking
class `VerificationResult` and the Python-version check of
`AutoMCPVerifier.check_environment`).

Part 2 models the core registry/dispatcher (the `automcp` package is not
present in the source tree; it is modelled from the specification).

Time is modelled in discrete milliseconds (a `Nat`).
-/

namespace AutoMCP

/-! ### Part 1: embedding of verify_automcp.py -/

/-- One entry of `VerificationResult.details`: the dict
`{"test": ..., "status": ..., "message": ...}` appended by `add_result`. -/
structure TestDetail where
  test : String
  status : String
  message : String
deriving Repr, DecidableEq

/-- Embeds the Python class `VerificationResult` (verify_automcp.py lines
30-38): name, the counters `passed`, `failed`, `skipped`, and the
`details` list. -/
structure VerificationResult where
  name : String
  passed : Nat
  failed : Nat
  skipped : Nat
  details : List TestDetail
deriving Repr, DecidableEq

/-- `VerificationResult.__init__`: all counters zero, empty details. -/
def VerificationResult.init (name : String) : VerificationResult :=
  { name := name, passed := 0, failed := 0, skipped := 0, details := [] }

/-- Embeds `VerificationResult.add_result(test_name, passed, message, skipped)`
(verify_automcp.py lines 40-54): the `skipped` flag is checked first, then
`passed`; exactly one counter is incremented and one detail entry appended. -/
def addResult (r : VerificationResult) (testName : String) (passed : Bool)
    (message : String) (skipped : Bool) : VerificationResult :=
  if skipped then
    { r with skipped := r.skipped + 1,
             details := r.details ++ [⟨testName, "SKIPPED", message⟩] }
  else if passed then
    { r with passed := r.passed + 1,
             details := r.details ++ [⟨testName, "PASSED", message⟩] }
  else
    { r with failed := r.failed + 1,
             details := r.details ++ [⟨testName, "FAILED", message⟩] }

/-- Arguments of one `add_result` call. -/
structure AddCall where
  testName : String
  passed : Bool
  message : String
  skipped : Bool
deriving Repr, DecidableEq

/-- A sequence of `add_result` calls applied in order. -/
def runCalls (r : VerificationResult) : List AddCall → VerificationResult
  | [] => r
  | c :: cs => runCalls (addResult r c.testName c.passed c.message c.skipped) cs

/-- Python string comparison (`<` on `str`): lexicographic by code point,
a strict prefix is smaller.  `platform.python_version() >= min_version`
in `check_environment` compares with exactly this order. -/
def pyStrLtL : List Char → List Char → Bool
  | [], [] => false
  | [], _ :: _ => true
  | _ :: _, [] => false
  | a :: as, b :: bs =>
    if a.toNat < b.toNat then true
    else if b.toNat < a.toNat then false
    else pyStrLtL as bs

/-- Python `a >= b` on strings: not (a < b). -/
def pyStrGe (a b : String) : Bool := !(pyStrLtL a.data b.data)

/-- Embeds the Python-version check of `AutoMCPVerifier.check_environment`
(verify_automcp.py lines 87-90): `python_ok = python_version >= "3.10.0"`,
a plain string comparison. -/
def pythonVersionOk (pythonVersion : String) : Bool :=
  pyStrGe pythonVersion "3.10.0"

/-- The `VerificationResult` after `check_environment` has recorded the
"Python Version" entry (verify_automcp.py lines 85-95). -/
def pythonVersionResult (pythonVersion : String) : VerificationResult :=
  addResult (VerificationResult.init "Environment Verification")
    "Python Version" (pythonVersionOk pythonVersion)
    ("Found " ++ pythonVersion ++ ", minimum required is 3.10.0") false

/-- Split a character list on the dot character. -/
def splitDots : List Char → List (List Char)
  | [] => [[]]
  | c :: cs =>
    if c = '.' then [] :: splitDots cs
    else
      match splitDots cs with
      | [] => [[c]]
      | p :: ps => (c :: p) :: ps

/-- Decimal digits to a number (non-digits contribute nothing). -/
def digitsToNat (cs : List Char) : Nat :=
  cs.foldl (fun acc c => acc * 10 + (c.toNat - 48)) 0

/-- Numeric (component-wise) reading of a dotted version string, the
comparison `check_environment` does NOT perform. -/
def verNums (s : String) : List Nat :=
  (splitDots s.data).map digitsToNat

/-- Lexicographic order on numeric version components. -/
def verLtL : List Nat → List Nat → Bool
  | [], [] => false
  | [], _ :: _ => true
  | _ :: _, [] => false
  | a :: as, b :: bs =>
    if a < b then true
    else if b < a then false
    else verLtL as bs

/-- `a` is a numerically older version than `b`. -/
def verLt (a b : String) : Bool := verLtL (verNums a) (verNums b)

/-! ### Part 2: model of the core registry/dispatcher

The `automcp` package itself (decorators, types, server) is not present in
the source tree — only its verification harness is — so the registry and
dispatcher below are modelled from the specification (sections 3, 4.3, 5
and 7).  Durations are in milliseconds. -/

/-- Argument and result values exchanged with an operation. -/
inductive Value where
  | str (s : String)
  | num (n : Nat)
deriving Repr, DecidableEq

/-- An arguments mapping: string keys to values. -/
abbrev Args := List (String × Value)

/-- Modelled from the spec: `OperationMetadata` (section 3), recorded by the
Operation Marker of the missing automcp package — short name, optional
schema descriptor, optional timeout override in milliseconds. -/
structure OperationMetadata where
  name : String
  schema : Option String
  timeout : Option Nat
deriving Repr, DecidableEq

/-- Modelled from the spec: a marked operation (section 4.1). Its body maps
an arguments mapping to a running duration in milliseconds together with an
outcome; `Except.error` models an exception raised by the body, carrying
the exception's message. -/
structure Operation where
  meta : OperationMetadata
  body : Args → Nat × Except String Value

/-- Modelled from the spec: a constructed `GroupDefinition` instance
(sections 3 and 4.2), identified by its configured group id and exposing
its marked operations in declaration order. -/
structure Group where
  group_id : String
  ops : List Operation

/-- Modelled from the spec: `ServiceConfig` (section 3) — the service name
plus the ordered collection of configured groups (already instantiated,
since group construction belongs to the excluded loader). -/
structure ServiceConfig where
  name : String
  groups : List Group

/-- Modelled from the spec: `OperationHandle` (section 3) — qualified name,
resolved timeout, and the bound operation. -/
structure OperationHandle where
  qualified_name : String
  timeout : Nat
  op : Operation

/-- The invocation default when no timeout is configured (section 4.3:
"an explicit invocation default, e.g. 30 time-units"), in milliseconds. -/
def defaultTimeout : Nat := 30000

/-- Qualified name: `group_id + "." + operation_name` (section 3). -/
def qualifiedName (g : Group) (op : Operation) : String :=
  g.group_id ++ "." ++ op.meta.name

/-- The handle derived for one operation of one group. -/
def mkHandle (g : Group) (op : Operation) : OperationHandle :=
  { qualified_name := qualifiedName g op,
    timeout := op.meta.timeout.getD defaultTimeout,
    op := op }

/-- All handles a configuration declares: group load order first, then
declaration order within each group. -/
def configHandles : List Group → List OperationHandle
  | [] => []
  | g :: gs => g.ops.map (mkHandle g) ++ configHandles gs

/-- Load-time errors (section 7). -/
inductive LoadError where
  | DuplicateOperationError (qualified_name : String)
  | UnknownGroupError (group_id : String)
  | ConfigurationError (message : String)
deriving Repr, DecidableEq

/-- The dispatch table, read-only after `load` (sections 4.3 and 5). -/
structure Registry where
  table : List OperationHandle

/-- Modelled from the spec: the table construction inside `load`
(section 4.3) — handles are inserted one by one; inserting a qualified name
that already exists fails with `DuplicateOperationError`, so no partial
table is ever produced. -/
def buildTable : List OperationHandle → List OperationHandle →
    Except LoadError (List OperationHandle)
  | acc, [] => .ok acc
  | acc, h :: rest =>
    if acc.any (fun e => e.qualified_name == h.qualified_name) then
      .error (.DuplicateOperationError h.qualified_name)
    else buildTable (acc ++ [h]) rest

/-- Modelled from the spec: `load(service_config)` (section 4.3) — builds
the dispatch table all-or-nothing. -/
def load (cfg : ServiceConfig) : Except LoadError Registry :=
  (buildTable [] (configHandles cfg.groups)).map Registry.mk

/-- Modelled from the spec: `list_operations()` (section 4.3) — the ordered
read-only snapshot of (qualified name, schema) pairs. -/
def list_operations (reg : Registry) : List (String × Option String) :=
  reg.table.map (fun h => (h.qualified_name, h.op.meta.schema))

/-- The qualified names one group declares, in declaration order. -/
def groupQualNames (g : Group) : List String :=
  g.ops.map (fun op => qualifiedName g op)

/-- All qualified names a configuration's groups declare, in group load
order then declaration order. -/
def qualNamesOf : List Group → List String
  | [] => []
  | g :: gs => groupQualNames g ++ qualNamesOf gs

/-- All qualified names a configuration declares. -/
def qualifiedNames (cfg : ServiceConfig) : List String :=
  qualNamesOf cfg.groups

/-- Total number of operations a configuration declares. -/
def numOps : List Group → Nat
  | [] => 0
  | g :: gs => g.ops.length + numOps gs

/-- Per-invocation errors, returned (never raised) by the dispatcher
(section 7). -/
inductive CallError where
  | OperationNotFoundError (message : String)
  | InvalidArgumentsError (message : String)
  | TimeoutError (message : String)
  | OperationError (message : String)
deriving Repr, DecidableEq

/-- The structured result of one invocation: success payload or error. -/
inductive InvokeResult where
  | ok (v : Value)
  | err (e : CallError)
deriving Repr, DecidableEq

/-- The message of a timeout result; per section 6 it contains the
substring "timeout". -/
def timeoutMessage : String :=
  "Operation timed out: deadline timeout exceeded"

/-- Look up a qualified name in the dispatch table. -/
def lookupHandle (reg : Registry) (q : String) : Option OperationHandle :=
  reg.table.find? (fun h => h.qualified_name == q)

/-- Modelled from the spec: `invoke(qualified_name, arguments)`
(section 4.3).  Returns the structured result together with the elapsed
time in milliseconds: an unregistered name yields `OperationNotFoundError`;
a body that runs longer than the handle's timeout is abandoned at the
deadline and yields a `TimeoutError` (elapsed time is the timeout, not the
body's duration); otherwise the body's own duration elapses and its
outcome is wrapped — a raised exception becomes an `OperationError`
carrying the original message, a returned value a success payload. -/
def invoke (reg : Registry) (q : String) (args : Args) : InvokeResult × Nat :=
  match lookupHandle reg q with
  | none => (.err (.OperationNotFoundError ("Operation not found: " ++ q)), 0)
  | some h =>
    let r := h.op.body args
    if h.timeout < r.1 then
      (.err (.TimeoutError timeoutMessage), h.timeout)
    else
      match r.2 with
      | .ok v => (.ok v, r.1)
      | .error m => (.err (.OperationError m), r.1)

/-- Two invocations against the same loaded registry; in the cooperative
concurrency model (section 5) every invocation is independent, so each
component of the pair is exactly the corresponding single invocation. -/
def invokePair (reg : Registry) (q1 : String) (a1 : Args) (q2 : String)
    (a2 : Args) : (InvokeResult × Nat) × (InvokeResult × Nat) :=
  (invoke reg q1 a1, invoke reg q2 a2)

/-- Load a configuration and, on success, invoke one operation. -/
def loadedInvoke (cfg : ServiceConfig) (q : String) (args : Args) :
    Option (InvokeResult × Nat) :=
  match load cfg with
  | .error _ => none
  | .ok reg => some (invoke reg q args)

/-- Maximum of a list of durations. -/
def maxList (l : List Nat) : Nat := l.foldr max 0

/-- Sum of a list of durations. -/
def sumList (l : List Nat) : Nat := l.foldr (· + ·) 0

/-- Modelled from the spec: cooperative concurrent execution (section 5) —
N invocations issued concurrently run against the read-only table, and the
total wall time is a fixed scheduling overhead plus the maximum of the
individual elapsed times, not their sum. -/
def runConcurrent (overhead : Nat) (reg : Registry)
    (calls : List (String × Args)) : List (InvokeResult × Nat) × Nat :=
  (calls.map (fun c => invoke reg c.1 c.2),
   overhead + maxList (calls.map (fun c => (invoke reg c.1 c.2).2)))

/-- Case-sensitive list-level substring match at the head. -/
def matchesAt : List Char → List Char → Bool
  | [], _ => true
  | _ :: _, [] => false
  | p :: ps, c :: cs => p == c && matchesAt ps cs

/-- Substring search over a character list. -/
def hasSub (pat : List Char) : List Char → Bool
  | [] => matchesAt pat []
  | c :: cs => matchesAt pat (c :: cs) || hasSub pat cs

/-- Lower-cased characters of a string. -/
def lowerChars (s : String) : List Char := s.data.map Char.toLower

/-- Case-insensitive substring containment. -/
def containsCI (s pat : String) : Bool :=
  hasSub (lowerChars pat) (lowerChars s)

/-! Concrete groups mirroring the verification harness's fixtures. -/

/-- The example group's `hello_world` operation: returns "Hello, World!"
immediately. -/
def hello_world : Operation :=
  { meta := { name := "hello_world", schema := none, timeout := none },
    body := fun _ => (0, .ok (.str "Hello, World!")) }

/-- The example group's `echo` operation: returns "Echo: " followed by the
`text` argument. -/
def echo : Operation :=
  { meta := { name := "echo", schema := some "text: string", timeout := none },
    body := fun args =>
      match args.lookup "text" with
      | some (.str t) => (0, .ok (.str ("Echo: " ++ t)))
      | _ => (0, .error "Missing required argument: text") }

/-- The example group's `count_to` operation; only its reachability and
timing matter here, so the payload is modelled as the target number. -/
def count_to : Operation :=
  { meta := { name := "count_to", schema := some "number: integer",
              timeout := none },
    body := fun args =>
      match args.lookup "number" with
      | some (.num n) => (0, .ok (.num n))
      | _ => (0, .error "Missing required argument: number") }

/-- The timeout group's `sleep` operation: its body runs for the requested
number of milliseconds. -/
def sleepOp : Operation :=
  { meta := { name := "sleep", schema := some "seconds: number",
              timeout := none },
    body := fun args =>
      match args.lookup "seconds" with
      | some (.num ms) => (ms, .ok (.str "Slept"))
      | _ => (0, .error "Missing required argument: seconds") }

/-- The timeout group's `slow_counter` operation: counts `count` times with
`delay` milliseconds between steps. -/
def slow_counter : Operation :=
  { meta := { name := "slow_counter", schema := some "count, delay",
              timeout := none },
    body := fun args =>
      match args.lookup "count", args.lookup "delay" with
      | some (.num c), some (.num d) => (c * d, .ok (.num c))
      | _, _ => (0, .error "Missing required arguments: count, delay") }

/-- `sleep` configured with an explicit timeout override of `t` ms. -/
def timedSleep (t : Nat) : Operation :=
  { meta := { name := "sleep", schema := some "seconds: number",
              timeout := some t },
    body := sleepOp.body }

/-- An operation whose body raises an exception with message "boom". -/
def failingOp : Operation :=
  { meta := { name := "fail", schema := none, timeout := none },
    body := fun _ => (0, Except.error "boom") }

/-- The example group. -/
def exampleGroup : Group :=
  { group_id := "example", ops := [hello_world, echo, count_to] }

/-- The timeout group as used by the multi-group configuration. -/
def timeoutGroup : Group :=
  { group_id := "timeout", ops := [sleepOp, slow_counter] }

/-- The timeout group with `sleep` under a `t` ms timeout override, as the
timeout-functionality test configures it. -/
def timedGroup (t : Nat) : Group :=
  { group_id := "timeout", ops := [timedSleep t, slow_counter] }

/-- A group holding the exception-raising operation. -/
def errGroup : Group :=
  { group_id := "errg", ops := [failingOp] }

/-- Single-group example configuration. -/
def exampleConfig : ServiceConfig :=
  { name := "example-service", groups := [exampleGroup] }

/-- Multi-group configuration used by the concurrent-requests scenario. -/
def multiConfig : ServiceConfig :=
  { name := "multi-service", groups := [exampleGroup, timeoutGroup] }

/-- Configuration with the 200 ms timeout override on `timeout.sleep`. -/
def timedConfig : ServiceConfig :=
  { name := "timed-service", groups := [timedGroup 200] }

/-- Configuration holding the exception-raising group. -/
def errConfig : ServiceConfig :=
  { name := "err-service", groups := [errGroup] }

/-- The registry loaded from `exampleConfig`. -/
def exampleRegistry : Registry :=
  match load exampleConfig with
  | .ok r => r
  | .error _ => { table := [] }

/-- The registry loaded from `multiConfig`. -/
def multiRegistry : Registry :=
  match load multiConfig with
  | .ok r => r
  | .error _ => { table := [] }

/-- The registry loaded from `timedConfig`. -/
def timedRegistry : Registry :=
  match load timedConfig with
  | .ok r => r
  | .error _ => { table := [] }

/-- The registry loaded from `errConfig`. -/
def errRegistry : Registry :=
  match load errConfig with
  | .ok r => r
  | .error _ => { table := [] }

/-- First of two groups that both declare `dup.hello_world`. -/
def dupG1 : Group := { group_id := "dup", ops := [hello_world] }

/-- Second of two groups that both declare `dup.hello_world`. -/
def dupG2 : Group := { group_id := "dup", ops := [hello_world] }

/-- A configuration whose two groups declare the same qualified name. -/
def dupConfig : ServiceConfig :=
  { name := "dup-service", groups := [dupG1, dupG2] }

/-- The five concurrent calls of the concurrent-requests scenario
(durations 0, 0, 0, 200 and 2 x 100 milliseconds). -/
def verifCalls : List (String × Args) :=
  [("example.hello_world", []),
   ("example.echo", [("text", .str "Concurrent test")]),
   ("example.count_to", [("number", .num 3)]),
   ("timeout.sleep", [("seconds", .num 200)]),
   ("timeout.slow_counter", [("count", .num 2), ("delay", .num 100)])]

end AutoMCP

namespace AutoMCP

/-! ### Theorems for Part 1 -/

/-- Helper: one `add_result` call adds exactly one to the counter total and
exactly one detail entry. -/
theorem addResult_totals (r : VerificationResult) (t : String) (p : Bool)
    (m : String) (sk : Bool) :
    (addResult r t p m sk).passed + (addResult r t p m sk).failed +
        (addResult r t p m sk).skipped
      = r.passed + r.failed + r.skipped + 1 ∧
    (addResult r t p m sk).details.length = r.details.length + 1 := by
  unfold addResult
  by_cases hsk : sk = true
  · simp [hsk] ; omega
  · simp at hsk
    by_cases hp : p = true
    · simp [hsk, hp] ; omega
    · simp at hp
      simp [hsk, hp] ; omega

/-- Helper: the counters-sum-equals-details-length invariant is preserved
by any sequence of `add_result` calls. -/
theorem runCalls_invariant (cs : List AddCall) (r : VerificationResult)
    (h : r.passed + r.failed + r.skipped = r.details.length) :
    (runCalls r cs).passed + (runCalls r cs).failed + (runCalls r cs).skipped
      = (runCalls r cs).details.length := by
  induction cs generalizing r with
  | nil => simpa [runCalls] using h
  | cons c cs ih =>
    have h1 := addResult_totals r c.testName c.passed c.message c.skipped
    exact ih _ (by omega)

/-- C10: every `add_result` call increments exactly one of the counters and
appends exactly one detail entry, so `passed + failed + skipped` always
equals `len(details)` along any call sequence started from a fresh
`VerificationResult`; and a call with `skipped=True` is counted as skipped
and recorded with status "SKIPPED" regardless of the `passed` argument. -/
theorem add_result_invariant (cs : List AddCall)
    (r : VerificationResult) (t : String) (p : Bool) (m : String) (sk : Bool)
    (hr : r.passed + r.failed + r.skipped = r.details.length) :
    ((runCalls r cs).passed + (runCalls r cs).failed + (runCalls r cs).skipped
      = (runCalls r cs).details.length) ∧
    ((addResult r t p m sk).passed + (addResult r t p m sk).failed +
        (addResult r t p m sk).skipped
      = r.passed + r.failed + r.skipped + 1) ∧
    ((addResult r t p m sk).details.length = r.details.length + 1) ∧
    ((addResult r t p m true).skipped = r.skipped + 1) ∧
    ((addResult r t p m true).passed = r.passed) ∧
    ((addResult r t p m true).failed = r.failed) ∧
    ((addResult r t p m true).details
      = r.details ++ [⟨t, "SKIPPED", m⟩]) := by
  refine ⟨runCalls_invariant cs r hr,
    (addResult_totals r t p m sk).1, (addResult_totals r t p m sk).2,
    ?_, ?_, ?_, ?_⟩ <;> simp [addResult]

/-- Witness for C10 at a concrete result and call list. -/
theorem add_result_invariant_witness :
    ((VerificationResult.init "V").passed + (VerificationResult.init "V").failed
        + (VerificationResult.init "V").skipped
      = (VerificationResult.init "V").details.length) ∧
    (((runCalls (VerificationResult.init "V")
        [⟨"a", true, "", false⟩, ⟨"b", false, "x", false⟩,
         ⟨"c", true, "", true⟩]).passed
        + (runCalls (VerificationResult.init "V")
        [⟨"a", true, "", false⟩, ⟨"b", false, "x", false⟩,
         ⟨"c", true, "", true⟩]).failed
        + (runCalls (VerificationResult.init "V")
        [⟨"a", true, "", false⟩, ⟨"b", false, "x", false⟩,
         ⟨"c", true, "", true⟩]).skipped
      = (runCalls (VerificationResult.init "V")
        [⟨"a", true, "", false⟩, ⟨"b", false, "x", false⟩,
         ⟨"c", true, "", true⟩]).details.length) ∧
      ((addResult (VerificationResult.init "V") "t" true "m" false).passed +
          (addResult (VerificationResult.init "V") "t" true "m" false).failed +
          (addResult (VerificationResult.init "V") "t" true "m" false).skipped
        = (VerificationResult.init "V").passed +
          (VerificationResult.init "V").failed +
          (VerificationResult.init "V").skipped + 1) ∧
      ((addResult (VerificationResult.init "V") "t" true "m" false).details.length
        = (VerificationResult.init "V").details.length + 1) ∧
      ((addResult (VerificationResult.init "V") "t" true "m" true).skipped
        = (VerificationResult.init "V").skipped + 1) ∧
      ((addResult (VerificationResult.init "V") "t" true "m" true).passed
        = (VerificationResult.init "V").passed) ∧
      ((addResult (VerificationResult.init "V") "t" true "m" true).failed
        = (VerificationResult.init "V").failed) ∧
      ((addResult (VerificationResult.init "V") "t" true "m" true).details
        = (VerificationResult.init "V").details ++ [⟨"t", "SKIPPED", "m"⟩])) :=
  ⟨by decide,
   add_result_invariant
     [⟨"a", true, "", false⟩, ⟨"b", false, "x", false⟩, ⟨"c", true, "", true⟩]
     (VerificationResult.init "V") "t" true "m" false (by decide)⟩

/-- C9: `check_environment` compares the Python version to "3.10.0" by
lexicographic string comparison: for every version string the check result
is exactly the string comparison `pythonVersion >= "3.10.0"`; in particular
for the numerically older version "3.9.0" the string comparison succeeds,
the "Python Version" entry is recorded with status "PASSED", even though
3.9.0 is numerically older than 3.10.0. -/
theorem check_environment_string_compare :
    (∀ v : String, pythonVersionOk v = pyStrGe v "3.10.0") ∧
    pythonVersionOk "3.9.0" = true ∧
    (pythonVersionResult "3.9.0").passed = 1 ∧
    (pythonVersionResult "3.9.0").failed = 0 ∧
    ((pythonVersionResult "3.9.0").details.map TestDetail.status = ["PASSED"]) ∧
    verLt "3.9.0" "3.10.0" = true := by
  refine ⟨fun v => rfl, by decide, ?_, ?_, ?_, by decide⟩ <;>
    simp [pythonVersionResult, addResult, VerificationResult.init,
      pythonVersionOk, pyStrGe, pyStrLtL]

end AutoMCP

namespace AutoMCP

/-! ### Theorems for Part 2 -/

/-- Helper: the qualified names of the derived handles are exactly the
declared qualified names, in the same order. -/
theorem qualNames_configHandles (gs : List Group) :
    (configHandles gs).map (fun h => h.qualified_name) = qualNamesOf gs := by
  induction gs with
  | nil => rfl
  | cons g gs ih =>
    simp [configHandles, qualNamesOf, groupQualNames, mkHandle, ih,
      List.map_map, Function.comp]

/-- Helper: `qualNamesOf` distributes over append. -/
theorem qualNamesOf_append (xs ys : List Group) :
    qualNamesOf (xs ++ ys) = qualNamesOf xs ++ qualNamesOf ys := by
  induction xs with
  | nil => rfl
  | cons g gs ih => simp [qualNamesOf, ih]

/-- Helper: the number of derived handles is the number of declared
operations. -/
theorem configHandles_length (gs : List Group) :
    (configHandles gs).length = numOps gs := by
  induction gs with
  | nil => rfl
  | cons g gs ih => simp [configHandles, numOps, ih]

/-- Helper: when all qualified names are distinct, the table construction
succeeds and appends every handle in order. -/
theorem buildTable_ok_of_nodup (hs : List OperationHandle) :
    ∀ acc : List OperationHandle,
      (((acc ++ hs).map (fun h => h.qualified_name)).Nodup) →
      buildTable acc hs = Except.ok (acc ++ hs) := by
  induction hs with
  | nil => intro acc _ ; simp [buildTable]
  | cons h rest ih =>
    intro acc hn
    have hnm : h.qualified_name ∉ acc.map (fun e => e.qualified_name) := by
      rw [List.map_append, List.nodup_append] at hn
      exact fun hm => hn.2.2 hm (by simp)
    have hcond : acc.any (fun e => e.qualified_name == h.qualified_name)
        = false := by
      by_contra hc
      rw [Bool.not_eq_false, List.any_eq_true] at hc
      obtain ⟨e, he, heq⟩ := hc
      rw [beq_iff_eq] at heq
      exact hnm (heq ▸ List.mem_map_of_mem _ he)
    have hstep : buildTable acc (h :: rest) = buildTable (acc ++ [h]) rest := by
      simp [buildTable, hcond]
    rw [hstep, ih (acc ++ [h]) (by simpa using hn)]
    simp

/-- Helper: a duplicated qualified name makes the table construction fail
with `DuplicateOperationError`. -/
theorem buildTable_error_of_dup (hs : List OperationHandle) :
    ∀ acc : List OperationHandle,
      ((acc.map (fun h => h.qualified_name)).Nodup) →
      ¬ (((acc ++ hs).map (fun h => h.qualified_name)).Nodup) →
      ∃ q, buildTable acc hs
        = Except.error (LoadError.DuplicateOperationError q) := by
  induction hs with
  | nil =>
    intro acc hacc hnd
    exact absurd (by simpa using hacc) hnd
  | cons h rest ih =>
    intro acc hacc hnd
    cases hc : acc.any (fun e => e.qualified_name == h.qualified_name) with
    | true =>
      exact ⟨h.qualified_name, by simp [buildTable, hc]⟩
    | false =>
      have hnm : h.qualified_name ∉ acc.map (fun e => e.qualified_name) := by
        intro hm
        rw [List.mem_map] at hm
        obtain ⟨e, he, heq⟩ := hm
        have : acc.any (fun e => e.qualified_name == h.qualified_name)
            = true := by
          rw [List.any_eq_true]
          exact ⟨e, he, by rw [beq_iff_eq] ; exact heq⟩
        rw [hc] at this
        cases this
      have hacc' : (((acc ++ [h]).map (fun e => e.qualified_name)).Nodup) := by
        rw [List.map_append, List.nodup_append]
        refine ⟨hacc, by simp, ?_⟩
        intro a ha hb
        simp at hb
        exact hnm (hb ▸ ha)
      have hnd' :
          ¬ ((((acc ++ [h]) ++ rest).map (fun e => e.qualified_name)).Nodup) := by
        simpa using hnd
      obtain ⟨q, hq⟩ := ih (acc ++ [h]) hacc' hnd'
      refine ⟨q, ?_⟩
      rw [show buildTable acc (h :: rest) = buildTable (acc ++ [h]) rest from
        by simp [buildTable, hc]]
      exact hq

/-- C1: for an operation whose body runs longer than its configured timeout,
`invoke` returns at the deadline — the elapsed time is the timeout, strictly
less than the body's duration — and the result is a returned `TimeoutError`
whose message contains the substring "timeout" case-insensitively. -/
theorem invoke_timeout_result (reg : Registry) (q : String) (args : Args)
    (h : OperationHandle) (d : Nat) (out : Except String Value)
    (hl : lookupHandle reg q = some h)
    (hb : h.op.body args = (d, out))
    (hd : h.timeout < d) :
    invoke reg q args
      = (InvokeResult.err (CallError.TimeoutError timeoutMessage), h.timeout) ∧
    containsCI timeoutMessage "timeout" = true ∧
    (invoke reg q args).2 = h.timeout ∧
    (invoke reg q args).2 < d := by
  have hmain : invoke reg q args
      = (InvokeResult.err (CallError.TimeoutError timeoutMessage), h.timeout) := by
    simp [invoke, hl, hb, hd]
  exact ⟨hmain, by decide, by rw [hmain], by rw [hmain] ; exact hd⟩

/-- Witness for C1: `timeout.sleep` under a 200 ms timeout, asked to sleep
1000 ms, times out at 200 ms. -/
theorem invoke_timeout_result_witness :
    (lookupHandle timedRegistry "timeout.sleep"
      = some (mkHandle (timedGroup 200) (timedSleep 200))) ∧
    ((mkHandle (timedGroup 200) (timedSleep 200)).op.body
        [("seconds", Value.num 1000)]
      = (1000, Except.ok (Value.str "Slept"))) ∧
    ((mkHandle (timedGroup 200) (timedSleep 200)).timeout < 1000) ∧
    (invoke timedRegistry "timeout.sleep" [("seconds", Value.num 1000)]
      = (InvokeResult.err (CallError.TimeoutError timeoutMessage),
         (mkHandle (timedGroup 200) (timedSleep 200)).timeout) ∧
     containsCI timeoutMessage "timeout" = true ∧
     (invoke timedRegistry "timeout.sleep" [("seconds", Value.num 1000)]).2
       = (mkHandle (timedGroup 200) (timedSleep 200)).timeout ∧
     (invoke timedRegistry "timeout.sleep" [("seconds", Value.num 1000)]).2
       < 1000) :=
  ⟨rfl, rfl, by decide,
   invoke_timeout_result timedRegistry "timeout.sleep"
     [("seconds", Value.num 1000)] (mkHandle (timedGroup 200) (timedSleep 200))
     1000 (Except.ok (Value.str "Slept")) rfl rfl (by decide)⟩

/-- C5: for an operation whose body completes strictly within its timeout,
`invoke` returns the operation's genuine result as a success payload with
the body's own duration, not a timeout. -/
theorem invoke_success_result (reg : Registry) (q : String) (args : Args)
    (h : OperationHandle) (d : Nat) (v : Value)
    (hl : lookupHandle reg q = some h)
    (hb : h.op.body args = (d, Except.ok v))
    (hd : d < h.timeout) :
    invoke reg q args = (InvokeResult.ok v, d) := by
  have hnd : ¬ h.timeout < d := by omega
  simp [invoke, hl, hb, hnd]

/-- Witness for C5: `timeout.sleep` under a 200 ms timeout, asked to sleep
100 ms, returns its genuine result after 100 ms. -/
theorem invoke_success_result_witness :
    (lookupHandle timedRegistry "timeout.sleep"
      = some (mkHandle (timedGroup 200) (timedSleep 200))) ∧
    ((mkHandle (timedGroup 200) (timedSleep 200)).op.body
        [("seconds", Value.num 100)]
      = (100, Except.ok (Value.str "Slept"))) ∧
    (100 < (mkHandle (timedGroup 200) (timedSleep 200)).timeout) ∧
    (invoke timedRegistry "timeout.sleep" [("seconds", Value.num 100)]
      = (InvokeResult.ok (Value.str "Slept"), 100)) :=
  ⟨rfl, rfl, by decide,
   invoke_success_result timedRegistry "timeout.sleep"
     [("seconds", Value.num 100)] (mkHandle (timedGroup 200) (timedSleep 200))
     100 (Value.str "Slept") rfl rfl (by decide)⟩

/-- C3: an exception raised by the operation body is caught and returned as
an `OperationError` carrying the original message; and because invocations
are independent, the outcome of any concurrently issued invocation is
exactly its own standalone outcome, whichever side of the pair the failing
call is on. -/
theorem invoke_exception_caught (reg : Registry) (q : String) (args : Args)
    (h : OperationHandle) (d : Nat) (m : String)
    (hl : lookupHandle reg q = some h)
    (hb : h.op.body args = (d, Except.error m))
    (hd : d ≤ h.timeout) :
    invoke reg q args = (InvokeResult.err (CallError.OperationError m), d) ∧
    (∀ q2 a2, (invokePair reg q args q2 a2).2 = invoke reg q2 a2) ∧
    (∀ q1 a1, (invokePair reg q1 a1 q args).1 = invoke reg q1 a1) := by
  have hnd : ¬ h.timeout < d := by omega
  exact ⟨by simp [invoke, hl, hb, hnd], fun q2 a2 => rfl, fun q1 a1 => rfl⟩

/-- Witness for C3: the `errg.fail` operation raises "boom"; the dispatcher
returns `OperationError "boom"`. -/
theorem invoke_exception_caught_witness :
    (lookupHandle errRegistry "errg.fail"
      = some (mkHandle errGroup failingOp)) ∧
    ((mkHandle errGroup failingOp).op.body [] = (0, Except.error "boom")) ∧
    (0 ≤ (mkHandle errGroup failingOp).timeout) ∧
    (invoke errRegistry "errg.fail" []
        = (InvokeResult.err (CallError.OperationError "boom"), 0) ∧
     (∀ q2 a2, (invokePair errRegistry "errg.fail" [] q2 a2).2
        = invoke errRegistry q2 a2) ∧
     (∀ q1 a1, (invokePair errRegistry q1 a1 "errg.fail" []).1
        = invoke errRegistry q1 a1)) :=
  ⟨rfl, rfl, by decide,
   invoke_exception_caught errRegistry "errg.fail" []
     (mkHandle errGroup failingOp) 0 "boom" rfl rfl (by decide)⟩

/-- C4: invoking a qualified name absent from the dispatch table returns an
`OperationNotFoundError` result (never a crash — `invoke` is total), and
any other invocation's outcome is exactly its own standalone outcome. -/
theorem invoke_not_found (reg : Registry) (q : String) (args : Args)
    (hl : lookupHandle reg q = none) :
    invoke reg q args
      = (InvokeResult.err
          (CallError.OperationNotFoundError ("Operation not found: " ++ q)),
         0) ∧
    (∀ q2 a2, (invokePair reg q args q2 a2).2 = invoke reg q2 a2) := by
  exact ⟨by simp [invoke, hl], fun q2 a2 => rfl⟩

/-- Witness for C4: invoking "nonexistent.op" on the loaded example
registry. -/
theorem invoke_not_found_witness :
    (lookupHandle exampleRegistry "nonexistent.op" = none) ∧
    (invoke exampleRegistry "nonexistent.op" []
        = (InvokeResult.err
            (CallError.OperationNotFoundError
              ("Operation not found: " ++ "nonexistent.op")), 0) ∧
     (∀ q2 a2, (invokePair exampleRegistry "nonexistent.op" [] q2 a2).2
        = invoke exampleRegistry q2 a2)) :=
  ⟨rfl, invoke_not_found exampleRegistry "nonexistent.op" [] rfl⟩

end AutoMCP

namespace AutoMCP

/-- C2: when two groups of a configuration declare the same qualified name,
`load` fails with `DuplicateOperationError` and never produces a registry —
no partial dispatch table is exposed, load is all-or-nothing. -/
theorem load_duplicate_fails (cfg : ServiceConfig) (pre mid post : List Group)
    (g1 g2 : Group) (q : String)
    (hg : cfg.groups = pre ++ g1 :: (mid ++ g2 :: post))
    (h1 : q ∈ groupQualNames g1) (h2 : q ∈ groupQualNames g2) :
    (∃ d, load cfg = Except.error (LoadError.DuplicateOperationError d)) ∧
    ∀ reg, load cfg ≠ Except.ok reg := by
  have hnd : ¬ (qualifiedNames cfg).Nodup := by
    intro hn
    rw [qualifiedNames, hg, qualNamesOf_append] at hn
    rw [show qualNamesOf (g1 :: (mid ++ g2 :: post))
        = groupQualNames g1 ++ qualNamesOf (mid ++ g2 :: post) from rfl] at hn
    rw [List.nodup_append] at hn
    have hn2 := hn.2.1
    rw [List.nodup_append] at hn2
    refine hn2.2.2 h1 ?_
    rw [qualNamesOf_append]
    refine List.mem_append_right _ ?_
    rw [show qualNamesOf (g2 :: post)
        = groupQualNames g2 ++ qualNamesOf post from rfl]
    exact List.mem_append_left _ h2
  have hmap :
      ¬ (((([] : List OperationHandle) ++ configHandles cfg.groups).map
          (fun h => h.qualified_name)).Nodup) := by
    simpa [qualNames_configHandles] using hnd
  obtain ⟨d, hd⟩ :=
    buildTable_error_of_dup (configHandles cfg.groups) [] (by simp) hmap
  refine ⟨⟨d, ?_⟩, ?_⟩
  · rw [load, hd] ; rfl
  · intro reg hreg
    rw [load, hd] at hreg
    cases hreg

/-- Witness for C2: the configuration whose two groups both declare
`dup.hello_world`. -/
theorem load_duplicate_fails_witness :
    (dupConfig.groups = [] ++ dupG1 :: ([] ++ dupG2 :: [])) ∧
    ("dup.hello_world" ∈ groupQualNames dupG1) ∧
    ("dup.hello_world" ∈ groupQualNames dupG2) ∧
    ((∃ d, load dupConfig
        = Except.error (LoadError.DuplicateOperationError d)) ∧
     ∀ reg, load dupConfig ≠ Except.ok reg) :=
  ⟨rfl, by decide, by decide,
   load_duplicate_fails dupConfig [] [] [] dupG1 dupG2 "dup.hello_world"
     rfl (by decide) (by decide)⟩

/-- C8: when all declared qualified names are distinct, `load` succeeds and
`list_operations` has exactly one entry per declared operation, whose
qualified names appear in group load order then declaration order. -/
theorem load_unique_succeeds (cfg : ServiceConfig)
    (h : (qualifiedNames cfg).Nodup) :
    ∃ reg, load cfg = Except.ok reg ∧
      (list_operations reg).map Prod.fst = qualifiedNames cfg ∧
      (list_operations reg).length = numOps cfg.groups := by
  have hb := buildTable_ok_of_nodup (configHandles cfg.groups) []
    (by simpa [qualNames_configHandles] using h)
  refine ⟨⟨configHandles cfg.groups⟩, ?_, ?_, ?_⟩
  · rw [load, show ([] : List OperationHandle) ++ configHandles cfg.groups
      = configHandles cfg.groups from by simp] at *
    rw [hb] ; rfl
  · rw [show qualifiedNames cfg = qualNamesOf cfg.groups from rfl,
      ← qualNames_configHandles]
    simp [list_operations, List.map_map, Function.comp]
  · simp [list_operations, configHandles_length]

/-- Witness for C8: the example configuration's three operations. -/
theorem load_unique_succeeds_witness :
    ((qualifiedNames exampleConfig).Nodup) ∧
    (∃ reg, load exampleConfig = Except.ok reg ∧
      (list_operations reg).map Prod.fst = qualifiedNames exampleConfig ∧
      (list_operations reg).length = numOps exampleConfig.groups) :=
  ⟨by decide, load_unique_succeeds exampleConfig (by decide)⟩

/-- C7: the operation declared as "echo" under group "example" is reachable
through the loaded registry as "example.echo", is listed with its schema,
and invoking it with text "Testing" returns exactly "Echo: Testing". -/
theorem echo_round_trip :
    load exampleConfig = Except.ok exampleRegistry ∧
    ("example.echo", echo.meta.schema) ∈ list_operations exampleRegistry ∧
    loadedInvoke exampleConfig "example.echo" [("text", Value.str "Testing")]
      = some (InvokeResult.ok (Value.str "Echo: Testing"), 0) :=
  ⟨rfl, by decide, by decide⟩

/-- C6: concurrently issued invocations complete in a wall time equal to
the fixed overhead plus the slowest individual elapsed time, not the sum;
for the five verification calls (slowest 200 ms, durations summing to
400 ms) the wall time lies between 200 and 700 ms for any scheduling
overhead up to 500 ms. -/
theorem concurrent_wall_time (o : Nat) (ho : o ≤ 500) :
    (∀ reg calls, (runConcurrent o reg calls).2
        = o + maxList (calls.map (fun c => (invoke reg c.1 c.2).2))) ∧
    (runConcurrent o multiRegistry verifCalls).2 = o + 200 ∧
    200 ≤ (runConcurrent o multiRegistry verifCalls).2 ∧
    (runConcurrent o multiRegistry verifCalls).2 ≤ 700 ∧
    sumList (verifCalls.map (fun c => (invoke multiRegistry c.1 c.2).2))
      = 400 := by
  have hm : maxList (verifCalls.map (fun c => (invoke multiRegistry c.1 c.2).2))
      = 200 := by decide
  have h2 : (runConcurrent o multiRegistry verifCalls).2 = o + 200 := by
    rw [show (runConcurrent o multiRegistry verifCalls).2
      = o + maxList (verifCalls.map
          (fun c => (invoke multiRegistry c.1 c.2).2)) from rfl, hm]
  exact ⟨fun reg calls => rfl, h2, by omega, by omega, by decide⟩

/-- Witness for C6 at overhead 300 ms. -/
theorem concurrent_wall_time_witness :
    ((300 : Nat) ≤ 500) ∧
    ((∀ reg calls, (runConcurrent 300 reg calls).2
        = 300 + maxList (calls.map (fun c => (invoke reg c.1 c.2).2))) ∧
     (runConcurrent 300 multiRegistry verifCalls).2 = 300 + 200 ∧
     200 ≤ (runConcurrent 300 multiRegistry verifCalls).2 ∧
     (runConcurrent 300 multiRegistry verifCalls).2 ≤ 700 ∧
     sumList (verifCalls.map (fun c => (invoke multiRegistry c.1 c.2).2))
       = 400) :=
  ⟨by decide, concurrent_wall_time 300 (by decide)⟩

end AutoMCP
